import Mathlib

/-!
Verification of the Comet ML integration callback (`optuna_integration/comet.py`).

The module is a shallow embedding of `CometCallback`: every field access and
remote call of the Python source is translated into explicit state passing over
a `CometState` that holds

* an event trace (`events`) recording each remote call in order,
* the remote experiment records touched by tag/annotation calls (`records`),
* the process-wide `comet_ml.active_experiment` pointer (`activeExperiment`),
* a counter generating fresh experiment keys (`counter`).

Objective/metric values are modelled as `Int` (the code only passes them
through, never computes with them), parameter values as `String`.
The default-workspace lookup (`comet_ml.api.API().get_default_workspace()`)
is external account resolution; the embedding takes the already-resolved
workspace string as input.
-/

/-- Optimization direction of one objective (`optuna.study.StudyDirection`
as used by studies: minimize or maximize). -/
inductive StudyDirection where
  | minimize
  | maximize
deriving DecidableEq, Repr, Inhabited

/-- A value stored in a study's user-attribute store: the code stores a string
(the study experiment key) and reads a trial-number → experiment-key mapping. -/
inductive AttrVal where
  | str (s : String)
  | dict (m : List (Nat × String))
deriving DecidableEq, Repr

/-- `optuna.Study`, restricted to the fields the callback reads or writes:
user attributes, directions, name, storage class name, and the numbers of the
current best (Pareto-optimal) trials as computed by the framework. -/
structure Study where
  userAttrs : List (String × AttrVal)
  directions : List StudyDirection
  studyName : String
  storageName : String
  bestTrialNumbers : List Nat
deriving DecidableEq, Repr

/-- `study.user_attrs.get(key)`. -/
def Study.getUserAttr (s : Study) (key : String) : Option AttrVal :=
  s.userAttrs.lookup key

/-- `study.set_user_attr(key, value)`: overwrite-or-add under `key`
(lookup returns the newest binding). -/
def Study.setUserAttr (s : Study) (key : String) (v : AttrVal) : Study :=
  { s with userAttrs := (key, v) :: s.userAttrs }

/-- `study.direction`: the single-objective direction accessor
(first entry of `directions`; optuna only allows it for 1-objective studies). -/
def Study.direction (s : Study) : StudyDirection :=
  s.directions.headD .minimize

/-- `optuna.Trial`, restricted to what the callback touches: the number, the
parameter mapping, the scalar `value`, the `values` sequence (absent for a
not-yet-told trial state), and the `experiment` attribute the decorator sets. -/
structure Trial where
  number : Nat
  params : List (String × String)
  value : Option Int
  values : Option (List Int)
  experiment : Option String
deriving DecidableEq, Repr

/-- A value passed to `log_other`: the code logs strings and the trial number. -/
inductive OVal where
  | str (s : String)
  | nat (n : Nat)
deriving DecidableEq, Repr

/-- One remote call made against the Comet client, in trace order. -/
inductive CometEvent where
  | createAPIExperiment (workspace projectName key : String)
  | resumeAPIExperiment (key : String)
  | createExperiment (workspace projectName key : String)
  | resumeExperiment (key : String)
  | addTag (key tag : String)
  | logOther (key name : String) (value : OVal)
  | logParameters (key : String) (params : List (String × String))
  | logMetric (key name : String) (value : Int)
  | logOptimization (key optimizationId metricName : String) (metricValue : Option Int)
      (parameters : List (String × String)) (objective : StudyDirection)
  | endExperiment (key : String)
deriving DecidableEq, Repr

/-- The tag/annotation content of one remote experiment record
(`others` is newest-first; `List.lookup` returns the current value). -/
structure ExpRecord where
  tags : List String
  others : List (String × OVal)
deriving DecidableEq, Repr

/-- The process-wide `comet_ml.active_experiment` object: its key and its
`ended` flag. -/
structure ActiveExp where
  key : String
  ended : Bool
deriving DecidableEq, Repr

/-- The state of the Comet client as seen by this process. -/
structure CometState where
  counter : Nat
  records : List (String × ExpRecord)
  activeExperiment : Option ActiveExp
  events : List CometEvent
deriving DecidableEq, Repr

/-- A fresh experiment key, as generated by the Comet client on creation. -/
def freshKey (n : Nat) : String :=
  "exp-" ++ toString n

/-- Append one event to the trace. -/
def CometState.emit (cs : CometState) (e : CometEvent) : CometState :=
  { cs with events := cs.events ++ [e] }

/-- The record currently stored under `key` (a new experiment starts empty). -/
def CometState.getRecord (cs : CometState) (key : String) : ExpRecord :=
  (cs.records.lookup key).getD ⟨[], []⟩

/-- `comet_ml.APIExperiment(workspace=…, project_name=…)`: create a new remote
record for the study and return its key. -/
def createAPIExperimentOp (cs : CometState) (workspace projectName : String) :
    String × CometState :=
  let key := freshKey cs.counter
  (key,
   { (cs.emit (.createAPIExperiment workspace projectName key)) with
       counter := cs.counter + 1
       records := (key, ⟨[], []⟩) :: cs.records })

/-- `comet_ml.APIExperiment(previous_experiment=key)`: reattach to an existing
study record; no new record is created. -/
def resumeAPIExperimentOp (cs : CometState) (key : String) : CometState :=
  cs.emit (.resumeAPIExperiment key)

/-- `comet_ml.Experiment(workspace=…, project_name=…)`: create a new remote
record for a trial and return its key. -/
def createExperimentOp (cs : CometState) (workspace projectName : String) :
    String × CometState :=
  let key := freshKey cs.counter
  (key,
   { (cs.emit (.createExperiment workspace projectName key)) with
       counter := cs.counter + 1
       records := (key, ⟨[], []⟩) :: cs.records })

/-- `comet_ml.ExistingExperiment(previous_experiment=key)`: reattach to an
existing trial record. -/
def resumeExperimentOp (cs : CometState) (key : String) : CometState :=
  cs.emit (.resumeExperiment key)

/-- `experiment.add_tag(tag)`. -/
def addTagOp (cs : CometState) (key tag : String) : CometState :=
  let r := cs.getRecord key
  { (cs.emit (.addTag key tag)) with
      records := (key, { r with tags := tag :: r.tags }) :: cs.records }

/-- `experiment.log_other(name, value)`: the annotation under `name` is
overwritten with `value`. -/
def logOtherOp (cs : CometState) (key name : String) (v : OVal) : CometState :=
  let r := cs.getRecord key
  { (cs.emit (.logOther key name v)) with
      records := (key, { r with others := (name, v) :: r.others }) :: cs.records }

/-- `experiment.log_parameters(params)`. -/
def logParametersOp (cs : CometState) (key : String)
    (params : List (String × String)) : CometState :=
  cs.emit (.logParameters key params)

/-- `experiment.log_metric(name, value)`. -/
def logMetricOp (cs : CometState) (key name : String) (v : Int) : CometState :=
  cs.emit (.logMetric key name v)

/-- `experiment.log_optimization(optimization_id=…, metric_name=…,
metric_value=…, parameters=…, objective=…)`. -/
def logOptimizationOp (cs : CometState) (key optimizationId metricName : String)
    (metricValue : Option Int) (params : List (String × String))
    (objective : StudyDirection) : CometState :=
  cs.emit (.logOptimization key optimizationId metricName metricValue params objective)

/-- `experiment.end()`: terminate the remote session; when the ended object is
the process-wide active experiment, its `ended` flag becomes true. -/
def endOp (cs : CometState) (key : String) : CometState :=
  { (cs.emit (.endExperiment key)) with
      activeExperiment :=
        match cs.activeExperiment with
        | some a => if a.key = key then some { a with ended := true } else some a
        | none => none }

/-- `setattr(comet_ml, "active_experiment", experiment)`: the freshly
created/resumed experiment object is open. -/
def setActiveOp (cs : CometState) (key : String) : CometState :=
  { cs with activeExperiment := some ⟨key, false⟩ }

/-- Python truthiness of an optional string: `None` and `""` are falsy
(the source guards creation with `if experiment_key:`). -/
def truthyStr : Option String → Option String
  | some s => if s = "" then none else some s
  | none => none

/-- The string held under a user-attribute key, when the value is a string. -/
def attrAsKey : Option AttrVal → Option String
  | some (.str v) => some v
  | _ => none

/-- `CometCallback._init_optuna_study_experiment` (comet.py lines 136-153):
resume the study's APIExperiment when a key is stored in the study's user
attributes, else create one, tag it `optuna_study`, annotate study name and
storage class, and persist the new key. Returns the resolved key, the
(possibly updated) study, and the client state. -/
def initOptunaStudyExperiment (workspace projectName : String) (study : Study)
    (cs : CometState) : String × Study × CometState :=
  match truthyStr (attrAsKey (study.getUserAttr "comet_study_experiment_key")) with
  | some key => (key, study, resumeAPIExperimentOp cs key)
  | none =>
      let (key, cs) := createAPIExperimentOp cs workspace projectName
      let cs := addTagOp cs key "optuna_study"
      let cs := logOtherOp cs key "optuna_study_name" (.str study.studyName)
      let cs := logOtherOp cs key "optuna_storage" (.str study.storageName)
      (key, study.setUserAttr "comet_study_experiment_key" (.str key), cs)

/-- `metric_names[i] if i < len(metric_names) else i`, then rendered into the
metric/annotation name by the f-string. -/
def metricNameAt (metricNames : List String) (i : Nat) : String :=
  match metricNames.get? i with
  | some n => n
  | none => toString i

/-- `"minimize" if direction == StudyDirection.MINIMIZE else "maximize"`. -/
def directionStr : StudyDirection → String
  | .minimize => "minimize"
  | .maximize => "maximize"

/-- The direction-logging loop of `CometCallback.__init__` (lines 92-95). -/
def logDirections (key : String) (metricNames : List String)
    (dirs : List StudyDirection) (cs : CometState) : CometState :=
  dirs.enum.foldl
    (fun cs p =>
      logOtherOp cs key ("direction_of_objective_" ++ metricNameAt metricNames p.1)
        (.str (directionStr p.2)))
    cs

/-- The instance state of a constructed `CometCallback`. -/
structure CallbackState where
  workspace : String
  projectName : String
  metricNames : List String
  studyExperimentKey : String
  trialExperiments : List (Nat × String)
deriving DecidableEq, Repr

/-- `CometCallback.__init__` (lines 68-101): resolve the study experiment, log
one direction annotation per objective, and load the trial→experiment-key
mapping from the study's user attributes (defaulting to empty; the trailing
bare `study.user_attrs` expression on line 101 is a no-op and is not modelled
as an effect). -/
def initCallback (study : Study) (workspace projectName : String)
    (metricNames : List String) (cs : CometState) :
    CallbackState × Study × CometState :=
  let (studyKey, study, cs) := initOptunaStudyExperiment workspace projectName study cs
  let cs := logDirections studyKey metricNames study.directions cs
  let trialExps :=
    match study.getUserAttr "trial_experiments" with
    | some (.dict m) => m
    | _ => []
  (⟨workspace, projectName, metricNames, studyKey, trialExps⟩, study, cs)

/-- Lines 172-184 of `_init_optuna_trial_experiment`: after the
active-experiment check, resume the stored experiment if a (truthy) key was
found, else create a new one, tag it `optuna_trial`, annotate the study name
and record the new key in the in-memory mapping; finally set the process-wide
active experiment. -/
def finishTrialInit (cb : CallbackState) (study : Study) (trial : Trial)
    (experimentKey : Option String) (cs : CometState) :
    String × CallbackState × Study × CometState :=
  match truthyStr experimentKey with
  | some key =>
      (key, cb, study, setActiveOp (resumeExperimentOp cs key) key)
  | none =>
      let (key, cs) := createExperimentOp cs cb.workspace cb.projectName
      let cs := addTagOp cs key "optuna_trial"
      let cs := logOtherOp cs key "optuna_study_name" (.str study.studyName)
      let cb := { cb with trialExperiments := (trial.number, key) :: cb.trialExperiments }
      (key, cb, study, setActiveOp cs key)

/-- `CometCallback._init_optuna_trial_experiment` (lines 155-184): look up the
trial's stored key; if the process-wide active experiment already has that key,
return it unchanged; else end the active experiment if it is still open, then
resume or create the trial experiment. Returns the resolved key and the updated
callback/study/client states. -/
def initOptunaTrialExperiment (cb : CallbackState) (study : Study) (trial : Trial)
    (cs : CometState) : String × CallbackState × Study × CometState :=
  let experimentKey := cb.trialExperiments.lookup trial.number
  match cs.activeExperiment with
  | some a =>
      if experimentKey = some a.key then
        (a.key, cb, study, cs)
      else
        let cs := if a.ended = false then endOp cs a.key else cs
        finishTrialInit cb study trial experimentKey cs
  | none => finishTrialInit cb study trial experimentKey cs

/-- The branch condition `trial.values and len(trial.values) > 1` of
`__call__` (line 115): an absent or empty value sequence is falsy. -/
def multiObjective : Option (List Int) → Bool
  | some vs => decide (1 < vs.length)
  | none => false

/-- `self._metric_names[0] if len(self._metric_names) > 0 else
"objective_value"` (line 122). -/
def metricName0 : List String → String
  | n :: _ => n
  | [] => "objective_value"

/-- The multi-objective logging loop of `__call__` (lines 117-119). -/
def logMetrics (key : String) (metricNames : List String) (vals : List Int)
    (cs : CometState) : CometState :=
  vals.enum.foldl
    (fun cs p => logMetricOp cs key (metricNameAt metricNames p.1) p.2)
    cs

/-- `json.dumps` of a list of ints (Python's default `", "` separator). -/
def jsonDumpsNats (l : List Nat) : String :=
  "[" ++ String.intercalate ", " (l.map toString) ++ "]"

/-- `CometCallback.__call__` (lines 103-134): resolve the trial experiment, log
parameters, trial number and tag, log either per-objective metrics
(multi-objective) or one composite optimization result (single-objective),
overwrite the `best_trials` annotation on the study experiment, and end the
trial experiment. -/
def callCallback (cb : CallbackState) (study : Study) (trial : Trial)
    (cs : CometState) : CallbackState × Study × CometState :=
  let (tkey, cb, study, cs) := initOptunaTrialExperiment cb study trial cs
  let cs := logParametersOp cs tkey trial.params
  let cs := logOtherOp cs tkey "trial_number" (.nat trial.number)
  let cs := addTagOp cs tkey ("trial_number_" ++ toString trial.number)
  let cs :=
    if multiObjective trial.values then
      logMetrics tkey cb.metricNames (trial.values.getD []) cs
    else
      logOptimizationOp cs tkey study.studyName (metricName0 cb.metricNames)
        trial.value trial.params study.direction
  let cs := logOtherOp cs cb.studyExperimentKey "best_trials"
      (.str (jsonDumpsNats study.bestTrialNumbers))
  let cs := endOp cs tkey
  (cb, study, cs)

/-- `CometCallback.track_in_comet` (lines 186-196): the wrapper produced by the
decorator, applied to one trial: resolve the trial's experiment against the
callback's stored study, set it as the trial's `experiment` attribute, then
call the wrapped objective function and return its result. -/
def trackInComet {α : Type} (cb : CallbackState) (selfStudy : Study)
    (f : Trial → α) (trial : Trial) (cs : CometState) :
    α × CallbackState × Study × CometState :=
  let (key, cb, selfStudy, cs) := initOptunaTrialExperiment cb selfStudy trial cs
  let trial := { trial with experiment := some key }
  (f trial, cb, selfStudy, cs)

/-! ## Observers on traces and records -/

/-- Is this event a direction annotation (a `log_other` whose name carries the
`direction_of_objective_` prefix written by `__init__`)? -/
def hasDirOther : CometEvent → Bool
  | .logOther _ name _ => "direction_of_objective_".data.isPrefixOf name.data
  | _ => false

/-- Is this event a `log_optimization` call? -/
def isLogOptB : CometEvent → Bool
  | .logOptimization .. => true
  | _ => false

/-- Is this event a `log_metric` call? -/
def isLogMetricB : CometEvent → Bool
  | .logMetric .. => true
  | _ => false

/-- Is this event a study-record creation (`APIExperiment` without
`previous_experiment`)? -/
def isCreateAPIB : CometEvent → Bool
  | .createAPIExperiment .. => true
  | _ => false

/-- The current annotation value stored under `name` on the remote record
`key`. -/
def getOther (cs : CometState) (key name : String) : Option OVal :=
  match cs.records.lookup key with
  | some r => r.others.lookup name
  | none => none

/-- The direction-annotation events `__init__` emits for `dirs`, in order. -/
def dirEventList (key : String) (metricNames : List String)
    (dirs : List StudyDirection) : List CometEvent :=
  dirs.enum.map fun p =>
    .logOther key ("direction_of_objective_" ++ metricNameAt metricNames p.1)
      (.str (directionStr p.2))

/-- The metric events the multi-objective branch of `__call__` emits for the
value list `vals`, in order. -/
def metricEventList (key : String) (metricNames : List String)
    (vals : List Int) : List CometEvent :=
  vals.enum.map fun p => .logMetric key (metricNameAt metricNames p.1) p.2

/-- The events `_init_optuna_trial_experiment` emits after closing (or in the
absence of) a previously active experiment: a resume of the stored experiment,
or the creation/tag/annotation sequence of a fresh one. -/
def postCloseEvents (cb : CallbackState) (study : Study) (trial : Trial)
    (cs : CometState) : List CometEvent :=
  match truthyStr (cb.trialExperiments.lookup trial.number) with
  | some k => [.resumeExperiment k]
  | none =>
      [.createExperiment cb.workspace cb.projectName (freshKey cs.counter),
       .addTag (freshKey cs.counter) "optuna_trial",
       .logOther (freshKey cs.counter) "optuna_study_name" (.str study.studyName)]

/-! ## Helper lemmas -/

theorem freshKey_ne_empty (n : Nat) : freshKey n ≠ "" := by
  intro h
  have hlen := congrArg String.length h
  simp [freshKey, String.length_append] at hlen
  exact absurd hlen.1 (by decide)

theorem truthyStr_eq_some {x : Option String} {k : String}
    (h : truthyStr x = some k) : x = some k ∧ k ≠ "" := by
  cases x with
  | none => simp [truthyStr] at h
  | some s =>
      simp only [truthyStr] at h
      by_cases hs : s = ""
      · simp [hs] at h
      · simp only [if_neg hs, Option.some.injEq] at h
        subst h
        exact ⟨rfl, hs⟩

theorem attrAsKey_eq_some {x : Option AttrVal} {k : String}
    (h : attrAsKey x = some k) : x = some (.str k) := by
  match x with
  | none => simp [attrAsKey] at h
  | some (.str v) => simp [attrAsKey] at h; simp [h]
  | some (.dict m) => simp [attrAsKey] at h

theorem foldl_logOther_events (key : String) (mn : List String) :
    ∀ (l : List (Nat × StudyDirection)) (cs : CometState),
      (l.foldl (fun cs p =>
          logOtherOp cs key ("direction_of_objective_" ++ metricNameAt mn p.1)
            (.str (directionStr p.2))) cs).events
        = cs.events ++ l.map (fun p =>
            CometEvent.logOther key ("direction_of_objective_" ++ metricNameAt mn p.1)
              (.str (directionStr p.2)))
  | [], cs => by simp
  | p :: l, cs => by
      simp only [List.foldl_cons, List.map_cons]
      rw [foldl_logOther_events key mn l]
      simp [logOtherOp, CometState.emit]

theorem logDirections_events_eq (key : String) (mn : List String)
    (dirs : List StudyDirection) (cs : CometState) :
    (logDirections key mn dirs cs).events = cs.events ++ dirEventList key mn dirs := by
  unfold logDirections dirEventList
  exact foldl_logOther_events key mn dirs.enum cs

theorem foldl_logMetric_events (key : String) (mn : List String) :
    ∀ (l : List (Nat × Int)) (cs : CometState),
      (l.foldl (fun cs p => logMetricOp cs key (metricNameAt mn p.1) p.2) cs).events
        = cs.events ++ l.map (fun p =>
            CometEvent.logMetric key (metricNameAt mn p.1) p.2)
  | [], cs => by simp
  | p :: l, cs => by
      simp only [List.foldl_cons, List.map_cons]
      rw [foldl_logMetric_events key mn l]
      simp [logMetricOp, CometState.emit]

theorem logMetrics_events_eq (key : String) (mn : List String)
    (vals : List Int) (cs : CometState) :
    (logMetrics key mn vals cs).events = cs.events ++ metricEventList key mn vals := by
  unfold logMetrics metricEventList
  exact foldl_logMetric_events key mn vals.enum cs

theorem hasDirOther_dirEvent (key name : String) (v : OVal) :
    hasDirOther (.logOther key ("direction_of_objective_" ++ name) v) = true := by
  show "direction_of_objective_".data.isPrefixOf
      ("direction_of_objective_" ++ name).data = true
  rw [String.data_append, List.isPrefixOf_iff_prefix]
  exact List.prefix_append _ _

theorem hasDirOther_studyName (k : String) (v : OVal) :
    hasDirOther (.logOther k "optuna_study_name" v) = false := rfl

theorem hasDirOther_storage (k : String) (v : OVal) :
    hasDirOther (.logOther k "optuna_storage" v) = false := rfl

theorem filter_hasDirOther_dirEventList (key : String) (mn : List String)
    (dirs : List StudyDirection) :
    (dirEventList key mn dirs).filter hasDirOther = dirEventList key mn dirs := by
  apply List.filter_eq_self.mpr
  intro e he
  simp only [dirEventList, List.mem_map] at he
  obtain ⟨⟨i, d⟩, _, rfl⟩ := he
  exact hasDirOther_dirEvent _ _ _

theorem initOptunaStudyExperiment_events_filter_dir (w p : String) (study : Study)
    (cs : CometState) :
    (initOptunaStudyExperiment w p study cs).2.2.events.filter hasDirOther
      = cs.events.filter hasDirOther := by
  unfold initOptunaStudyExperiment
  cases htr : truthyStr (attrAsKey (study.getUserAttr "comet_study_experiment_key")) with
  | some k =>
      simp [resumeAPIExperimentOp, CometState.emit, hasDirOther]
  | none =>
      simp [createAPIExperimentOp, addTagOp, logOtherOp, CometState.emit,
        CometState.getRecord, hasDirOther_studyName, hasDirOther_storage, hasDirOther]

theorem initOptunaStudyExperiment_directions (w p : String) (study : Study)
    (cs : CometState) :
    (initOptunaStudyExperiment w p study cs).2.1.directions = study.directions := by
  unfold initOptunaStudyExperiment
  cases htr : truthyStr (attrAsKey (study.getUserAttr "comet_study_experiment_key")) <;>
    simp [Study.setUserAttr]

theorem finishTrialInit_study_eq (cb : CallbackState) (study : Study)
    (trial : Trial) (ek : Option String) (cs : CometState) :
    (finishTrialInit cb study trial ek cs).2.2.1 = study := by
  unfold finishTrialInit
  split <;> rfl

theorem initOptunaTrialExperiment_study_eq (cb : CallbackState) (study : Study)
    (trial : Trial) (cs : CometState) :
    (initOptunaTrialExperiment cb study trial cs).2.2.1 = study := by
  unfold initOptunaTrialExperiment
  cases hA : cs.activeExperiment with
  | none => exact finishTrialInit_study_eq _ _ _ _ _
  | some a =>
      by_cases hk : List.lookup trial.number cb.trialExperiments = some a.key <;>
        simp [hk, finishTrialInit_study_eq]

theorem finishTrialInit_cb_fields (cb : CallbackState) (study : Study)
    (trial : Trial) (ek : Option String) (cs : CometState) :
    (finishTrialInit cb study trial ek cs).2.1.metricNames = cb.metricNames
    ∧ (finishTrialInit cb study trial ek cs).2.1.studyExperimentKey
        = cb.studyExperimentKey := by
  unfold finishTrialInit
  split <;> exact ⟨rfl, rfl⟩

theorem initOptunaTrialExperiment_cb_fields (cb : CallbackState) (study : Study)
    (trial : Trial) (cs : CometState) :
    (initOptunaTrialExperiment cb study trial cs).2.1.metricNames = cb.metricNames
    ∧ (initOptunaTrialExperiment cb study trial cs).2.1.studyExperimentKey
        = cb.studyExperimentKey := by
  unfold initOptunaTrialExperiment
  cases hA : cs.activeExperiment with
  | none => exact finishTrialInit_cb_fields _ _ _ _ _
  | some a =>
      by_cases hk : List.lookup trial.number cb.trialExperiments = some a.key <;>
        simp [hk, finishTrialInit_cb_fields]

theorem finishTrialInit_events_decomp (cb : CallbackState) (study : Study)
    (trial : Trial) (ek : Option String) (cs : CometState) :
    ∃ E, (finishTrialInit cb study trial ek cs).2.2.2.events = cs.events ++ E
      ∧ E.filter isLogOptB = [] ∧ E.filter isLogMetricB = [] := by
  unfold finishTrialInit
  cases htr : truthyStr ek with
  | some k =>
      exact ⟨[.resumeExperiment k],
        by simp [resumeExperimentOp, setActiveOp, CometState.emit], rfl, rfl⟩
  | none =>
      refine ⟨[.createExperiment cb.workspace cb.projectName (freshKey cs.counter),
               .addTag (freshKey cs.counter) "optuna_trial",
               .logOther (freshKey cs.counter) "optuna_study_name"
                 (.str study.studyName)], ?_, rfl, rfl⟩
      simp [createExperimentOp, addTagOp, logOtherOp, setActiveOp, CometState.emit,
        CometState.getRecord]

theorem initOptunaTrialExperiment_events_decomp (cb : CallbackState) (study : Study)
    (trial : Trial) (cs : CometState) :
    ∃ E, (initOptunaTrialExperiment cb study trial cs).2.2.2.events = cs.events ++ E
      ∧ E.filter isLogOptB = [] ∧ E.filter isLogMetricB = [] := by
  unfold initOptunaTrialExperiment
  cases hA : cs.activeExperiment with
  | none => exact finishTrialInit_events_decomp _ _ _ _ _
  | some a =>
      by_cases hk : List.lookup trial.number cb.trialExperiments = some a.key
      · exact ⟨[], by simp [hk], rfl, rfl⟩
      · by_cases he : a.ended = false
        · simp only [if_neg hk, he, if_true]
          obtain ⟨E, hE, h1, h2⟩ := finishTrialInit_events_decomp cb study trial
            (List.lookup trial.number cb.trialExperiments) (endOp cs a.key)
          refine ⟨CometEvent.endExperiment a.key :: E, ?_, ?_, ?_⟩
          · rw [hE]
            simp [endOp, CometState.emit]
          · simp [isLogOptB, h1]
          · simp [isLogMetricB, h2]
        · simp only [if_neg hk, if_neg he]
          exact finishTrialInit_events_decomp _ _ _ _ _

theorem filter_isLogMetricB_metricEventList (key : String) (mn : List String)
    (vals : List Int) :
    (metricEventList key mn vals).filter isLogMetricB = metricEventList key mn vals := by
  apply List.filter_eq_self.mpr
  intro e he
  simp only [metricEventList, List.mem_map] at he
  obtain ⟨⟨i, v⟩, _, rfl⟩ := he
  rfl

theorem filter_isLogOptB_metricEventList (key : String) (mn : List String)
    (vals : List Int) :
    (metricEventList key mn vals).filter isLogOptB = [] := by
  apply List.filter_eq_nil_iff.mpr
  intro e he
  simp only [metricEventList, List.mem_map] at he
  obtain ⟨⟨i, v⟩, _, rfl⟩ := he
  simp [isLogOptB]

theorem getOther_logOtherOp_self (cs : CometState) (k n : String) (v : OVal) :
    getOther (logOtherOp cs k n v) k n = some v := by
  simp [getOther, logOtherOp, CometState.emit, List.lookup_cons]

theorem getOther_endOp (cs : CometState) (k' k n : String) :
    getOther (endOp cs k') k n = getOther cs k n := rfl

/-! ## Claim theorems -/

/-- C7: when the process-wide active experiment exists and its key equals the
identifier stored for the trial, `_init_optuna_trial_experiment` returns that
active experiment's key with the callback state, study and client state all
unchanged: no close, no create/resume, no tagging or annotation, and no
modification of the trial→experiment-key mapping. -/
theorem comet_c7_active_hit (cb : CallbackState) (study : Study) (trial : Trial)
    (cs : CometState) (a : ActiveExp)
    (hact : cs.activeExperiment = some a)
    (hkey : cb.trialExperiments.lookup trial.number = some a.key) :
    initOptunaTrialExperiment cb study trial cs = (a.key, cb, study, cs) := by
  unfold initOptunaTrialExperiment
  rw [hact]
  simp [hkey]

theorem comet_c7_active_hit_witness :
    ((⟨5, [], some ⟨"k", false⟩, []⟩ : CometState).activeExperiment
        = some (⟨"k", false⟩ : ActiveExp))
    ∧ ((⟨"w", "p", [], "sk", [(0, "k")]⟩ : CallbackState)).trialExperiments.lookup
        ((⟨0, [], none, none, none⟩ : Trial)).number = some (ActiveExp.key ⟨"k", false⟩)
    ∧ initOptunaTrialExperiment ⟨"w", "p", [], "sk", [(0, "k")]⟩
        ⟨[], [.minimize], "s", "St", []⟩ ⟨0, [], none, none, none⟩
        ⟨5, [], some ⟨"k", false⟩, []⟩
      = ("k", ⟨"w", "p", [], "sk", [(0, "k")]⟩, ⟨[], [.minimize], "s", "St", []⟩,
         ⟨5, [], some ⟨"k", false⟩, []⟩) :=
  ⟨by decide, by decide,
   comet_c7_active_hit ⟨"w", "p", [], "sk", [(0, "k")]⟩ ⟨[], [.minimize], "s", "St", []⟩
     ⟨0, [], none, none, none⟩ ⟨5, [], some ⟨"k", false⟩, []⟩ ⟨"k", false⟩
     (by decide) (by decide)⟩

/-- C9: the wrapper produced by `track_in_comet` resolves the trial's
experiment, sets it as the trial's `experiment` attribute, then calls the
wrapped objective function on the updated trial and returns its result
unchanged; its state effects are exactly those of the resolution. -/
theorem comet_c9_wrapper {α : Type} (cb : CallbackState) (selfStudy : Study)
    (f : Trial → α) (trial : Trial) (cs : CometState) :
    trackInComet cb selfStudy f trial cs
      = (f { trial with
              experiment := some (initOptunaTrialExperiment cb selfStudy trial cs).1 },
         (initOptunaTrialExperiment cb selfStudy trial cs).2) := by
  rcases h : initOptunaTrialExperiment cb selfStudy trial cs with ⟨k, cb', s', cs'⟩
  simp [trackInComet, h]

/-- C2 (code bug): `_init_optuna_trial_experiment` never writes back to the
study's user attributes, so the trial→experiment-key mapping is only updated
in the in-memory dictionary; concretely, after constructing the callback on a
fresh study and resolving trial 0, the in-memory mapping holds the new key but
the study's `"trial_experiments"` attribute is still absent. -/
theorem comet_c2_no_persistence :
    (∀ (cb : CallbackState) (study : Study) (trial : Trial) (cs : CometState),
        (initOptunaTrialExperiment cb study trial cs).2.2.1 = study)
    ∧ ((initOptunaTrialExperiment
          (initCallback ⟨[], [.minimize], "study0", "storage", []⟩ "w" "general" []
            ⟨0, [], none, []⟩).1
          (initCallback ⟨[], [.minimize], "study0", "storage", []⟩ "w" "general" []
            ⟨0, [], none, []⟩).2.1
          ⟨0, [("lr", "0.1")], some 1, some [1], none⟩
          (initCallback ⟨[], [.minimize], "study0", "storage", []⟩ "w" "general" []
            ⟨0, [], none, []⟩).2.2).2.1.trialExperiments.lookup 0
        = some (initOptunaTrialExperiment
            (initCallback ⟨[], [.minimize], "study0", "storage", []⟩ "w" "general" []
              ⟨0, [], none, []⟩).1
            (initCallback ⟨[], [.minimize], "study0", "storage", []⟩ "w" "general" []
              ⟨0, [], none, []⟩).2.1
            ⟨0, [("lr", "0.1")], some 1, some [1], none⟩
            (initCallback ⟨[], [.minimize], "study0", "storage", []⟩ "w" "general" []
              ⟨0, [], none, []⟩).2.2).1
       ∧ (initOptunaTrialExperiment
            (initCallback ⟨[], [.minimize], "study0", "storage", []⟩ "w" "general" []
              ⟨0, [], none, []⟩).1
            (initCallback ⟨[], [.minimize], "study0", "storage", []⟩ "w" "general" []
              ⟨0, [], none, []⟩).2.1
            ⟨0, [("lr", "0.1")], some 1, some [1], none⟩
            (initCallback ⟨[], [.minimize], "study0", "storage", []⟩ "w" "general" []
              ⟨0, [], none, []⟩).2.2).2.2.1.getUserAttr "trial_experiments"
          = none) := by
  constructor
  · intro cb study trial cs
    exact initOptunaTrialExperiment_study_eq cb study trial cs
  · exact ⟨by decide, by decide⟩

/-- C4: for a study with `N` objectives, constructing the callback logs on the
study experiment exactly the `N` direction annotations, one per objective in
order, each valued `"minimize"`/`"maximize"` according to that objective's
direction and keyed by the configured metric name at that position when the
metric-name list is long enough, else by the positional index (the trace's
direction annotations are exactly `dirEventList`, whose length is `N`). -/
theorem comet_c4_directions_logged (study : Study) (w p : String)
    (mn : List String) (cs : CometState)
    (hclean : cs.events.filter hasDirOther = []) :
    (initCallback study w p mn cs).2.2.events.filter hasDirOther
      = dirEventList (initCallback study w p mn cs).1.studyExperimentKey mn
          study.directions
    ∧ (dirEventList (initCallback study w p mn cs).1.studyExperimentKey mn
          study.directions).length = study.directions.length := by
  rcases h : initOptunaStudyExperiment w p study cs with ⟨sk, st', cs'⟩
  have hdir : st'.directions = study.directions := by
    have hd := initOptunaStudyExperiment_directions w p study cs
    rw [h] at hd
    exact hd
  have hf : cs'.events.filter hasDirOther = [] := by
    have he := initOptunaStudyExperiment_events_filter_dir w p study cs
    rw [h] at he
    rw [he, hclean]
  constructor
  · simp only [initCallback, h]
    rw [logDirections_events_eq, List.filter_append, hf, hdir,
      filter_hasDirOther_dirEventList]
    simp
  · simp [dirEventList]

theorem comet_c4_directions_logged_witness :
    ((⟨0, [], none, []⟩ : CometState).events.filter hasDirOther = [])
    ∧ ((initCallback ⟨[], [.minimize, .maximize], "s", "St", []⟩ "w" "p" ["loss"]
          ⟨0, [], none, []⟩).2.2.events.filter hasDirOther
        = dirEventList (initCallback ⟨[], [.minimize, .maximize], "s", "St", []⟩
            "w" "p" ["loss"] ⟨0, [], none, []⟩).1.studyExperimentKey ["loss"]
            (Study.directions ⟨[], [.minimize, .maximize], "s", "St", []⟩)
       ∧ (dirEventList (initCallback ⟨[], [.minimize, .maximize], "s", "St", []⟩
            "w" "p" ["loss"] ⟨0, [], none, []⟩).1.studyExperimentKey ["loss"]
            (Study.directions ⟨[], [.minimize, .maximize], "s", "St", []⟩)).length
          = (Study.directions ⟨[], [.minimize, .maximize], "s", "St", []⟩).length) :=
  ⟨by decide,
   comet_c4_directions_logged ⟨[], [.minimize, .maximize], "s", "St", []⟩ "w" "p"
     ["loss"] ⟨0, [], none, []⟩ (by decide)⟩

/-- C1 (counterexample to the claim as stated): a study whose user attributes
hold the empty string under `"comet_study_experiment_key"` does contain a
value under that key, yet resolution creates a new record (the source guards
with Python truthiness, `if experiment_key:`, under which `""` counts as
absent). -/
theorem comet_c1_counterexample :
    ((Study.getUserAttr ⟨[("comet_study_experiment_key", .str "")], [.minimize],
        "s", "St", []⟩ "comet_study_experiment_key").isSome = true)
    ∧ (initOptunaStudyExperiment "w" "p"
          ⟨[("comet_study_experiment_key", .str "")], [.minimize], "s", "St", []⟩
          ⟨0, [], none, []⟩).2.2.events.filter isCreateAPIB ≠ [] := by
  decide

/-- C1 (amended): for every study whose user attributes contain a non-empty
string under `"comet_study_experiment_key"`, resolving the study experiment
resumes the remote record by that stored identifier and does nothing else (no
creation, no tagging, no annotation, no attribute write — the whole effect is
one resume call and the study is unchanged); moreover every resolution leaves
a non-empty stored key behind, so resolution is idempotent once the key exists
and at most one StudyExperiment is ever created per study. -/
theorem comet_c1_resume_no_create (w p : String) (study : Study) (cs : CometState)
    (k : String) (hk : k ≠ "")
    (hs : study.getUserAttr "comet_study_experiment_key" = some (.str k)) :
    initOptunaStudyExperiment w p study cs = (k, study, resumeAPIExperimentOp cs k)
    ∧ ∀ (s' : Study) (cs' : CometState), ∃ k', k' ≠ ""
        ∧ (initOptunaStudyExperiment w p s' cs').2.1.getUserAttr
            "comet_study_experiment_key" = some (.str k') := by
  constructor
  · unfold initOptunaStudyExperiment
    rw [hs]
    simp [attrAsKey, truthyStr, hk]
  · intro s' cs'
    unfold initOptunaStudyExperiment
    cases htr : truthyStr (attrAsKey (s'.getUserAttr "comet_study_experiment_key")) with
    | some key =>
        obtain ⟨hx, hne⟩ := truthyStr_eq_some htr
        exact ⟨key, hne, attrAsKey_eq_some hx⟩
    | none =>
        refine ⟨freshKey cs'.counter, freshKey_ne_empty _, ?_⟩
        simp [createAPIExperimentOp, Study.setUserAttr, Study.getUserAttr,
          List.lookup_cons]

/-- C3: when the process-wide active experiment exists, is still open, and its
key differs from the identifier stored for the trial, resolution first emits
the `end` call for the active experiment and only then the resume or
create/tag/annotate sequence for the new one, and finishes with the
process-wide pointer set to the resolved experiment, open. -/
theorem comet_c3_close_before_switch (cb : CallbackState) (study : Study)
    (trial : Trial) (cs : CometState) (a : ActiveExp)
    (hact : cs.activeExperiment = some a) (hopen : a.ended = false)
    (hne : cb.trialExperiments.lookup trial.number ≠ some a.key) :
    (initOptunaTrialExperiment cb study trial cs).2.2.2.events
      = cs.events ++ CometEvent.endExperiment a.key
          :: postCloseEvents cb study trial cs
    ∧ (initOptunaTrialExperiment cb study trial cs).2.2.2.activeExperiment
      = some ⟨(initOptunaTrialExperiment cb study trial cs).1, false⟩ := by
  unfold initOptunaTrialExperiment
  rw [hact]
  simp only [hopen, if_neg hne, if_true]
  cases htr : truthyStr (List.lookup trial.number cb.trialExperiments) with
  | some k =>
      simp [finishTrialInit, htr, postCloseEvents, endOp, resumeExperimentOp,
        setActiveOp, CometState.emit]
  | none =>
      simp [finishTrialInit, htr, postCloseEvents, endOp, createExperimentOp,
        addTagOp, logOtherOp, setActiveOp, CometState.emit, CometState.getRecord]

theorem comet_c3_close_before_switch_witness :
    ((⟨7, [], some ⟨"A", false⟩, []⟩ : CometState).activeExperiment
        = some (⟨"A", false⟩ : ActiveExp)
      ∧ (⟨"A", false⟩ : ActiveExp).ended = false
      ∧ (⟨"w", "p", [], "sk", []⟩ : CallbackState).trialExperiments.lookup
          ((⟨1, [], none, none, none⟩ : Trial)).number
          ≠ some (ActiveExp.key ⟨"A", false⟩))
    ∧ ((initOptunaTrialExperiment ⟨"w", "p", [], "sk", []⟩
          ⟨[], [.minimize], "s", "St", []⟩ ⟨1, [], none, none, none⟩
          ⟨7, [], some ⟨"A", false⟩, []⟩).2.2.2.events
        = (⟨7, [], some ⟨"A", false⟩, []⟩ : CometState).events
            ++ CometEvent.endExperiment (ActiveExp.key ⟨"A", false⟩)
              :: postCloseEvents ⟨"w", "p", [], "sk", []⟩
                  ⟨[], [.minimize], "s", "St", []⟩ ⟨1, [], none, none, none⟩
                  ⟨7, [], some ⟨"A", false⟩, []⟩
       ∧ (initOptunaTrialExperiment ⟨"w", "p", [], "sk", []⟩
            ⟨[], [.minimize], "s", "St", []⟩ ⟨1, [], none, none, none⟩
            ⟨7, [], some ⟨"A", false⟩, []⟩).2.2.2.activeExperiment
          = some ⟨(initOptunaTrialExperiment ⟨"w", "p", [], "sk", []⟩
              ⟨[], [.minimize], "s", "St", []⟩ ⟨1, [], none, none, none⟩
              ⟨7, [], some ⟨"A", false⟩, []⟩).1, false⟩) :=
  ⟨⟨by decide, by decide, by decide⟩,
   comet_c3_close_before_switch ⟨"w", "p", [], "sk", []⟩
     ⟨[], [.minimize], "s", "St", []⟩ ⟨1, [], none, none, none⟩
     ⟨7, [], some ⟨"A", false⟩, []⟩ ⟨"A", false⟩ (by decide) (by decide) (by decide)⟩

theorem comet_c1_resume_no_create_witness :
    ("k0" ≠ ""
      ∧ Study.getUserAttr ⟨[("comet_study_experiment_key", .str "k0")], [.minimize],
          "s", "St", []⟩ "comet_study_experiment_key" = some (.str "k0"))
    ∧ (initOptunaStudyExperiment "w" "p"
          ⟨[("comet_study_experiment_key", .str "k0")], [.minimize], "s", "St", []⟩
          ⟨3, [], none, []⟩
        = ("k0", ⟨[("comet_study_experiment_key", .str "k0")], [.minimize], "s", "St", []⟩,
           resumeAPIExperimentOp ⟨3, [], none, []⟩ "k0")
       ∧ ∀ (s' : Study) (cs' : CometState), ∃ k', k' ≠ ""
           ∧ (initOptunaStudyExperiment "w" "p" s' cs').2.1.getUserAttr
               "comet_study_experiment_key" = some (.str k')) :=
  ⟨⟨by decide, by decide⟩,
   comet_c1_resume_no_create "w" "p"
     ⟨[("comet_study_experiment_key", .str "k0")], [.minimize], "s", "St", []⟩
     ⟨3, [], none, []⟩ "k0" (by decide) (by decide)⟩

theorem callCallback_single_branch (cb : CallbackState) (study : Study)
    (trial : Trial) (cs : CometState)
    (hm : multiObjective trial.values = false)
    (hopt : cs.events.filter isLogOptB = [])
    (hmet : cs.events.filter isLogMetricB = []) :
    (callCallback cb study trial cs).2.2.events.filter isLogOptB
      = [CometEvent.logOptimization (initOptunaTrialExperiment cb study trial cs).1
          study.studyName (metricName0 cb.metricNames) trial.value trial.params
          study.direction]
    ∧ (callCallback cb study trial cs).2.2.events.filter isLogMetricB = [] := by
  rcases h : initOptunaTrialExperiment cb study trial cs with ⟨tkey, cb', st', cs'⟩
  have hst : st' = study := by
    have hq := initOptunaTrialExperiment_study_eq cb study trial cs
    rw [h] at hq
    exact hq
  have hmn : cb'.metricNames = cb.metricNames := by
    have hq := initOptunaTrialExperiment_cb_fields cb study trial cs
    rw [h] at hq
    exact hq.1
  obtain ⟨E, hE, hEopt, hEmet⟩ := initOptunaTrialExperiment_events_decomp cb study trial cs
  rw [h] at hE
  replace hE : cs'.events = cs.events ++ E := hE
  subst hst
  simp only [callCallback, h, hm, Bool.false_eq_true, if_false]
  constructor <;>
    simp [logParametersOp, logOtherOp, addTagOp, logOptimizationOp, endOp,
      CometState.emit, CometState.getRecord, List.filter_append, hE, hopt, hmet,
      hEopt, hEmet, isLogOptB, isLogMetricB, hmn]

/-- C5: for a completed trial with exactly one objective value, `__call__`
issues exactly one `log_optimization` call — named by the first configured
metric name, or `"objective_value"` when none are configured (`metricName0`) —
carrying the trial's scalar `value`, the trial's parameter mapping, the study's
direction and the study's name as the optimization-run identifier, and issues
no per-objective `log_metric` call. -/
theorem comet_c5_single_objective (cb : CallbackState) (study : Study)
    (trial : Trial) (cs : CometState) (v : Int)
    (hv : trial.values = some [v])
    (hopt : cs.events.filter isLogOptB = [])
    (hmet : cs.events.filter isLogMetricB = []) :
    (callCallback cb study trial cs).2.2.events.filter isLogOptB
      = [CometEvent.logOptimization (initOptunaTrialExperiment cb study trial cs).1
          study.studyName (metricName0 cb.metricNames) trial.value trial.params
          study.direction]
    ∧ (callCallback cb study trial cs).2.2.events.filter isLogMetricB = [] := by
  have hm : multiObjective trial.values = false := by
    rw [hv]
    rfl
  exact callCallback_single_branch cb study trial cs hm hopt hmet

theorem comet_c5_single_objective_witness :
    ((⟨0, [("lr", "0.1")], some 42, some [42], none⟩ : Trial).values = some [42]
      ∧ (⟨0, [], none, []⟩ : CometState).events.filter isLogOptB = []
      ∧ (⟨0, [], none, []⟩ : CometState).events.filter isLogMetricB = [])
    ∧ ((callCallback ⟨"w", "p", [], "sk", []⟩ ⟨[], [.minimize], "s", "St", []⟩
          ⟨0, [("lr", "0.1")], some 42, some [42], none⟩
          ⟨0, [], none, []⟩).2.2.events.filter isLogOptB
        = [CometEvent.logOptimization
            (initOptunaTrialExperiment ⟨"w", "p", [], "sk", []⟩
              ⟨[], [.minimize], "s", "St", []⟩
              ⟨0, [("lr", "0.1")], some 42, some [42], none⟩ ⟨0, [], none, []⟩).1
            (Study.studyName ⟨[], [.minimize], "s", "St", []⟩)
            (metricName0 (CallbackState.metricNames ⟨"w", "p", [], "sk", []⟩))
            ((⟨0, [("lr", "0.1")], some 42, some [42], none⟩ : Trial)).value
            ((⟨0, [("lr", "0.1")], some 42, some [42], none⟩ : Trial)).params
            (Study.direction ⟨[], [.minimize], "s", "St", []⟩)]
       ∧ (callCallback ⟨"w", "p", [], "sk", []⟩ ⟨[], [.minimize], "s", "St", []⟩
            ⟨0, [("lr", "0.1")], some 42, some [42], none⟩
            ⟨0, [], none, []⟩).2.2.events.filter isLogMetricB = []) :=
  ⟨⟨by decide, by decide, by decide⟩,
   comet_c5_single_objective ⟨"w", "p", [], "sk", []⟩ ⟨[], [.minimize], "s", "St", []⟩
     ⟨0, [("lr", "0.1")], some 42, some [42], none⟩ ⟨0, [], none, []⟩ 42
     (by decide) (by decide) (by decide)⟩

/-- C10: for a completed trial whose `values` is absent (`None`) or empty, the
branch condition `trial.values and len(trial.values) > 1` is false, so
`__call__` takes the single-objective branch: one `log_optimization` call
carrying the trial's scalar `value` field, and no `log_metric` call. -/
theorem comet_c10_absent_values_single (cb : CallbackState) (study : Study)
    (trial : Trial) (cs : CometState)
    (hv : trial.values = none ∨ trial.values = some [])
    (hopt : cs.events.filter isLogOptB = [])
    (hmet : cs.events.filter isLogMetricB = []) :
    (callCallback cb study trial cs).2.2.events.filter isLogOptB
      = [CometEvent.logOptimization (initOptunaTrialExperiment cb study trial cs).1
          study.studyName (metricName0 cb.metricNames) trial.value trial.params
          study.direction]
    ∧ (callCallback cb study trial cs).2.2.events.filter isLogMetricB = [] := by
  have hm : multiObjective trial.values = false := by
    rcases hv with hv | hv <;> rw [hv] <;> rfl
  exact callCallback_single_branch cb study trial cs hm hopt hmet

theorem comet_c10_absent_values_single_witness :
    (((⟨3, [], some 7, none, none⟩ : Trial).values = none
        ∨ (⟨3, [], some 7, none, none⟩ : Trial).values = some [])
      ∧ (⟨0, [], none, []⟩ : CometState).events.filter isLogOptB = []
      ∧ (⟨0, [], none, []⟩ : CometState).events.filter isLogMetricB = [])
    ∧ ((callCallback ⟨"w", "p", ["m"], "sk", []⟩ ⟨[], [.maximize], "s", "St", []⟩
          ⟨3, [], some 7, none, none⟩ ⟨0, [], none, []⟩).2.2.events.filter isLogOptB
        = [CometEvent.logOptimization
            (initOptunaTrialExperiment ⟨"w", "p", ["m"], "sk", []⟩
              ⟨[], [.maximize], "s", "St", []⟩ ⟨3, [], some 7, none, none⟩
              ⟨0, [], none, []⟩).1
            (Study.studyName ⟨[], [.maximize], "s", "St", []⟩)
            (metricName0 (CallbackState.metricNames ⟨"w", "p", ["m"], "sk", []⟩))
            ((⟨3, [], some 7, none, none⟩ : Trial)).value
            ((⟨3, [], some 7, none, none⟩ : Trial)).params
            (Study.direction ⟨[], [.maximize], "s", "St", []⟩)]
       ∧ (callCallback ⟨"w", "p", ["m"], "sk", []⟩ ⟨[], [.maximize], "s", "St", []⟩
            ⟨3, [], some 7, none, none⟩ ⟨0, [], none, []⟩).2.2.events.filter
              isLogMetricB = []) :=
  ⟨⟨Or.inl (by decide), by decide, by decide⟩,
   comet_c10_absent_values_single ⟨"w", "p", ["m"], "sk", []⟩
     ⟨[], [.maximize], "s", "St", []⟩ ⟨3, [], some 7, none, none⟩ ⟨0, [], none, []⟩
     (Or.inl (by decide)) (by decide) (by decide)⟩

/-- C6: for a completed trial with more than one objective value, `__call__`
logs each objective value as a separate named metric — the metric calls in the
trace are exactly `metricEventList`, one per objective in order, named by the
configured list at that position when available, else by the positional
index — and issues no composite `log_optimization` call. -/
theorem comet_c6_multi_objective (cb : CallbackState) (study : Study)
    (trial : Trial) (cs : CometState) (vs : List Int)
    (hv : trial.values = some vs) (hlen : 1 < vs.length)
    (hopt : cs.events.filter isLogOptB = [])
    (hmet : cs.events.filter isLogMetricB = []) :
    (callCallback cb study trial cs).2.2.events.filter isLogMetricB
      = metricEventList (initOptunaTrialExperiment cb study trial cs).1
          cb.metricNames vs
    ∧ (metricEventList (initOptunaTrialExperiment cb study trial cs).1
          cb.metricNames vs).length = vs.length
    ∧ (callCallback cb study trial cs).2.2.events.filter isLogOptB = [] := by
  have hm : multiObjective (some vs) = true := by
    simpa [multiObjective] using hlen
  rcases h : initOptunaTrialExperiment cb study trial cs with ⟨tkey, cb', st', cs'⟩
  have hst : st' = study := by
    have hq := initOptunaTrialExperiment_study_eq cb study trial cs
    rw [h] at hq
    exact hq
  have hmn : cb'.metricNames = cb.metricNames := by
    have hq := initOptunaTrialExperiment_cb_fields cb study trial cs
    rw [h] at hq
    exact hq.1
  obtain ⟨E, hE, hEopt, hEmet⟩ := initOptunaTrialExperiment_events_decomp cb study trial cs
  rw [h] at hE
  replace hE : cs'.events = cs.events ++ E := hE
  subst hst
  refine ⟨?_, by simp [metricEventList], ?_⟩ <;>
    simp [callCallback, h, hm, hv, logParametersOp, logOtherOp, addTagOp, endOp,
      CometState.emit, CometState.getRecord, logMetrics_events_eq,
      List.filter_append, hE, hopt, hmet, hEopt, hEmet, isLogMetricB, isLogOptB,
      hmn, filter_isLogMetricB_metricEventList, filter_isLogOptB_metricEventList]

theorem comet_c6_multi_objective_witness :
    ((⟨0, [], none, some [1, 9], none⟩ : Trial).values = some [1, 9]
      ∧ 1 < ([1, 9] : List Int).length
      ∧ (⟨0, [], none, []⟩ : CometState).events.filter isLogOptB = []
      ∧ (⟨0, [], none, []⟩ : CometState).events.filter isLogMetricB = [])
    ∧ ((callCallback ⟨"w", "p", ["loss", "acc"], "sk", []⟩
          ⟨[], [.minimize, .maximize], "s", "St", []⟩ ⟨0, [], none, some [1, 9], none⟩
          ⟨0, [], none, []⟩).2.2.events.filter isLogMetricB
        = metricEventList (initOptunaTrialExperiment ⟨"w", "p", ["loss", "acc"], "sk", []⟩
            ⟨[], [.minimize, .maximize], "s", "St", []⟩ ⟨0, [], none, some [1, 9], none⟩
            ⟨0, [], none, []⟩).1 ["loss", "acc"] [1, 9]
       ∧ (metricEventList (initOptunaTrialExperiment ⟨"w", "p", ["loss", "acc"], "sk", []⟩
            ⟨[], [.minimize, .maximize], "s", "St", []⟩ ⟨0, [], none, some [1, 9], none⟩
            ⟨0, [], none, []⟩).1 ["loss", "acc"] [1, 9]).length = ([1, 9] : List Int).length
       ∧ (callCallback ⟨"w", "p", ["loss", "acc"], "sk", []⟩
            ⟨[], [.minimize, .maximize], "s", "St", []⟩ ⟨0, [], none, some [1, 9], none⟩
            ⟨0, [], none, []⟩).2.2.events.filter isLogOptB = []) :=
  ⟨⟨by decide, by decide, by decide, by decide⟩,
   comet_c6_multi_objective ⟨"w", "p", ["loss", "acc"], "sk", []⟩
     ⟨[], [.minimize, .maximize], "s", "St", []⟩ ⟨0, [], none, some [1, 9], none⟩
     ⟨0, [], none, []⟩ [1, 9] (by decide) (by decide) (by decide) (by decide)⟩

theorem getOther_callCallback_best (cb : CallbackState) (study : Study)
    (trial : Trial) (cs : CometState) :
    getOther (callCallback cb study trial cs).2.2 cb.studyExperimentKey "best_trials"
      = some (.str (jsonDumpsNats study.bestTrialNumbers)) := by
  rcases h : initOptunaTrialExperiment cb study trial cs with ⟨tkey, cb', st', cs'⟩
  have hst : st' = study := by
    have hq := initOptunaTrialExperiment_study_eq cb study trial cs
    rw [h] at hq
    exact hq
  have hsk : cb'.studyExperimentKey = cb.studyExperimentKey := by
    have hq := initOptunaTrialExperiment_cb_fields cb study trial cs
    rw [h] at hq
    exact hq.2
  subst hst
  simp only [callCallback, h]
  rw [getOther_endOp, hsk, getOther_logOtherOp_self]

/-- C8: after every `__call__` invocation the study experiment's
`"best_trials"` annotation equals the JSON-encoded array of the study's
current best trial numbers, whatever value was stored before (full overwrite);
in particular a second invocation against the same study state leaves the same
value. -/
theorem comet_c8_best_trials_overwrite (cb : CallbackState) (study : Study)
    (trial trial' : Trial) (cs : CometState) :
    getOther (callCallback cb study trial cs).2.2 cb.studyExperimentKey "best_trials"
      = some (.str (jsonDumpsNats study.bestTrialNumbers))
    ∧ getOther (callCallback (callCallback cb study trial cs).1 study trial'
          (callCallback cb study trial cs).2.2).2.2
        ((callCallback cb study trial cs).1).studyExperimentKey "best_trials"
      = some (.str (jsonDumpsNats study.bestTrialNumbers)) :=
  ⟨getOther_callCallback_best cb study trial cs,
   getOther_callCallback_best _ study trial' _⟩
